import Mathlib

/-!
Shallow embedding of the permission-aware dispatcher of
`src/Agent/Tools/FireBaseTool.py`: the record model, the helper functions
(`_get_personal_data`, `_check_document_status`, `_get_user_by_identifier`,
`_get_new_applicant_count`, `_get_user_document`) and the main dispatcher
`get_user_specific_data_tool`, together with theorems about their behaviour.

Python strings are Lean `String`s; Python dicts are association lists that
preserve insertion order; the Firestore client is a `Store` value whose
`getRaises` flag models the document-get call raising an I/O exception
(which the source catches and converts to `None`); the internal LLM router
call is an external input modelled by `RouterOutcome`.
-/

/-- A value stored in a user record: a string, an integer, or a
document-status map (document name to flag), mirroring the record fields
the Python code reads. -/
inductive FVal where
  | vStr (s : String)
  | vNum (n : Int)
  | vMap (m : List (String × Bool))
deriving DecidableEq, Repr

/-- A user record: a Python dict as an insertion-ordered association list. -/
abbrev UserDoc := List (String × FVal)

instance : BEq FVal := ⟨fun a b => decide (a = b)⟩

instance : LawfulBEq FVal where
  eq_of_beq h := by simpa [BEq.beq] using h
  rfl := by simp [BEq.beq]

/-- Lower-case a list of characters (Python `str.lower()` on ASCII data). -/
def lowerChars (l : List Char) : List Char := l.map Char.toLower

/-- Python `s.lower()`. -/
def lowerStr (s : String) : String := ⟨lowerChars s.data⟩

/-- Python `s.lower().replace(" ", "")`: lower-case and strip spaces. -/
def cleanChars (l : List Char) : List Char :=
  (l.map Char.toLower).filter (fun c => c ≠ ' ')

/-- Does `needle` occur at the head of the second list? -/
def headMatch : List Char → List Char → Bool
  | [], _ => true
  | _ :: _, [] => false
  | a :: as, b :: bs => a == b && headMatch as bs

/-- Python `needle in haystack` on strings: substring occurrence. -/
def subChars (needle : List Char) : List Char → Bool
  | [] => needle.isEmpty
  | c :: cs => headMatch needle (c :: cs) || subChars needle cs

/-- Python `str.title()` on ASCII data: a letter is upper-cased when the
previous character is not a letter, lower-cased otherwise. -/
def titleAux : List Char → Bool → List Char
  | [], _ => []
  | c :: cs, prevAlpha =>
    (if c.isAlpha then (if prevAlpha then c.toLower else c.toUpper) else c)
      :: titleAux cs c.isAlpha

/-- Python `identifier.title()`. -/
def pythonTitle (s : String) : String := ⟨titleAux s.data false⟩

/-- Python `name.capitalize()`: first character upper-cased, rest lower-cased. -/
def pythonCapitalize (s : String) : String :=
  match s.data with
  | [] => ""
  | c :: cs => ⟨c.toUpper :: lowerChars cs⟩

/-- Python `s.replace(pat, repl)` for a nonempty `pat`: replace every
non-overlapping occurrence, scanning left to right. -/
def replaceAllChars (pat repl : List Char) : List Char → List Char
  | [] => []
  | c :: cs =>
    if pat ≠ [] ∧ headMatch pat (c :: cs) = true then
      repl ++ replaceAllChars pat repl (cs.drop (pat.length - 1))
    else
      c :: replaceAllChars pat repl cs
termination_by l => l.length
decreasing_by
  · simp only [List.length_drop, List.length_cons]
    omega
  · simp

/-- Python `s.replace(pat, repl)` on strings. -/
def pyReplace (s pat repl : String) : String := ⟨replaceAllChars pat.data repl.data s.data⟩

/-- Python `sep.join(items)`. -/
def joinSep (sep : String) : List String → String
  | [] => ""
  | [x] => x
  | x :: y :: rest => x ++ sep ++ joinSep sep (y :: rest)

/-- Python `dict` repr of a document-status map, used when such a map is
rendered inside an f-string. -/
def mapRepr (m : List (String × Bool)) : String :=
  "\x7b" ++
    joinSep ", " (m.map (fun kv => "'" ++ kv.1 ++ "': " ++ (if kv.2 then "True" else "False")))
    ++ "\x7d"

/-- How a record value renders inside a Python f-string. -/
def pyStr : FVal → String
  | .vStr s => s
  | .vNum n => toString n
  | .vMap m => mapRepr m

/-- Numeric content of a record value; the code only does arithmetic on
fields that hold numbers. -/
def numOf : FVal → Int
  | .vNum n => n
  | _ => 0

/-- Group the (reversed) digit list of a number in threes, Python's
thousands separator `,` in a `:,.2f` format spec. -/
def groupRev : List Char → List Char
  | a :: b :: c :: rest@(_ :: _) => a :: b :: c :: ',' :: groupRev rest
  | l => l

/-- Python `f"{value:,.2f}"` for an integer number of currency units. -/
def formatMoney (n : Int) : String :=
  let sign := if n < 0 then "-" else ""
  let digits := (toString n.natAbs).data
  sign ++ ⟨(groupRev digits.reverse).reverse⟩ ++ ".00"

/-- The display name of a record: `user_doc.get("name", default)` rendered
as in an f-string. -/
def docName (user_doc : UserDoc) (default : String) : String :=
  pyStr ((user_doc.lookup "name").getD (FVal.vStr default))

/-- The fixed canonical field order of the `all` summary. -/
def ordered_keys : List String :=
  ["name", "email", "role", "position", "department",
   "baseSalary", "bonus", "annualLeaveDays", "sickLeaveDays"]

/-- One line of the `all` summary for a present key. -/
def summaryLine (key : String) (v : FVal) : String :=
  if key = "baseSalary" then "- Salary: $" ++ formatMoney (numOf v)
  else if key = "bonus" then "- Bonus: $" ++ formatMoney (numOf v)
  else "- " ++ pythonTitle (pyReplace key "joinDate" "Start Date") ++ ": " ++ pyStr v

/-- The `field_lower == "all"` branch of `_get_personal_data`: ordered
summary lines for present canonical keys, then the submitted-documents and
resubmission lines when those maps are nonempty and have a true flag. -/
def allSummary (user_doc : UserDoc) : String :=
  let name := docName user_doc "The user"
  let header := "Here is a summary for " ++ name ++ ":"
  let fieldLines :=
    ordered_keys.filterMap (fun key => (user_doc.lookup key).map (summaryLine key))
  let uploadedLines :=
    match user_doc.lookup "uploadedDocuments" with
    | some (.vMap m) =>
      if m.isEmpty then []
      else
        let submitted := joinSep ", " ((m.filter (fun kv => kv.2)).map (fun kv => kv.1))
        if submitted = "" then [] else ["- Documents Submitted: " ++ submitted]
    | _ => []
  let resubLines :=
    match user_doc.lookup "resubmissionRequested" with
    | some (.vMap m) =>
      if m.isEmpty then []
      else
        let resub := joinSep ", " ((m.filter (fun kv => kv.2)).map (fun kv => kv.1))
        if resub = "" then [] else ["- Resubmission Required For: " ++ resub]
    | _ => []
  joinSep "\n" (header :: (fieldLines ++ uploadedLines ++ resubLines))

/-- The synthetic `salary` branch of `_get_personal_data`: total
compensation from `baseSalary` plus `bonus`, or the unavailable report. -/
def syntheticSalary (user_doc : UserDoc) : String :=
  let name := docName user_doc "The user"
  if (user_doc.lookup "baseSalary").isSome then
    let base := numOf ((user_doc.lookup "baseSalary").getD (FVal.vNum 0))
    let bonus := numOf ((user_doc.lookup "bonus").getD (FVal.vNum 0))
    pythonCapitalize name ++ "'s total compensation is $" ++ formatMoney (base + bonus) ++ "."
  else
    "Salary information is not available for " ++ name ++ "."

/-- `_get_personal_data(user_doc, field)`: `field` is `Option` because the
dispatcher passes `parameters.get("field")`, which may be absent. -/
def _get_personal_data (user_doc : UserDoc) (field : Option String) : String :=
  match field with
  | none => "Please specify what personal information you'd like to know."
  | some f =>
    if f = "" then "Please specify what personal information you'd like to know."
    else
      let name := docName user_doc "The user"
      let field_lower := lowerStr f
      if field_lower = "all" then allSummary user_doc
      else
        match user_doc.find? (fun kv => lowerStr kv.1 == field_lower) with
        | some kv => "The value for '" ++ kv.1 ++ "' for " ++ name ++ " is: " ++ pyStr kv.2
        | none =>
          if field_lower = "salary" then syntheticSalary user_doc
          else
            "I'm sorry, I couldn't find information about '" ++ f ++ "' in "
              ++ name ++ "'s records."

/-- `find_robust_key(data_map, target_key_from_llm)`: first key of the map
whose lower-cased, space-stripped form contains the lower-cased,
space-stripped target as a substring. -/
def find_robust_key (data_map : List (String × Bool)) (target_key_from_llm : String) :
    Option String :=
  let clean_target := cleanChars target_key_from_llm.data
  (data_map.find? (fun kv => subChars clean_target (cleanChars kv.1.data))).map (fun kv => kv.1)

/-- `_check_document_status(user_doc, document_name)`: the
resubmission-requested map is consulted first and short-circuits only on a
true flag; then the uploaded-documents map; otherwise no information.
Each `if key := find_robust_key(...)` walrus test in the source checks the
truthiness of the bound key, so a found empty-string key is treated as no
match and falls through. -/
def _check_document_status (user_doc : UserDoc) (document_name : Option String) : String :=
  match document_name with
  | none => "Please specify which document you'd like to check."
  | some dn =>
    if dn = "" then "Please specify which document you'd like to check."
    else
      let name := docName user_doc "the user"
      let resubMsg : Option String :=
        match user_doc.lookup "resubmissionRequested" with
        | some (.vMap resub_map) =>
          if resub_map.isEmpty then none
          else
            match find_robust_key resub_map dn with
            | some resub_key =>
              if resub_key = "" then none
              else if (resub_map.lookup resub_key).getD false then
                some ("Action required for " ++ name ++ ": They need to resubmit their '"
                  ++ resub_key ++ "'.")
              else none
            | none => none
        | _ => none
      match resubMsg with
      | some msg => msg
      | none =>
        let upMsg : Option String :=
          match user_doc.lookup "uploadedDocuments" with
          | some (.vMap up_map) =>
            if up_map.isEmpty then none
            else
              match find_robust_key up_map dn with
              | some up_key =>
                if up_key = "" then none
                else if (up_map.lookup up_key).getD false then
                  some ("Yes, the '" ++ up_key ++ "' for " ++ name
                    ++ " has been successfully submitted and approved.")
                else none
              | none => none
          | _ => none
        match upMsg with
        | some msg => msg
        | none =>
          "There is no information regarding the document '" ++ dn ++ "' for " ++ name ++ "."

/-- The Firestore `users` collection: documents keyed by user id, in
collection order, plus a flag modelling the document `get()` call raising
an I/O exception on this request. -/
structure Store where
  users : List (String × UserDoc)
  getRaises : Bool
deriving DecidableEq

/-- `_get_user_document(db_client, user_id)`: `none` when the client is
missing, when the awaited `get()` raises (the exception is caught, logged
and converted to `None`), or when no document with that id exists. -/
def _get_user_document (dbClientPresent : Bool) (store : Store) (user_id : String) :
    Option UserDoc :=
  if !dbClientPresent then none
  else if store.getRaises then none
  else store.users.lookup user_id

/-- `_get_user_by_identifier(db_client, identifier)`: the first document
whose `email` field equals the identifier; failing that, the first whose
`name` field equals the title-cased identifier. -/
def _get_user_by_identifier (docs : List UserDoc) (identifier : String) : Option UserDoc :=
  if identifier = "" then none
  else
    match docs.find? (fun d => d.lookup "email" == some (FVal.vStr identifier)) with
    | some d => some d
    | none =>
      docs.find? (fun d => d.lookup "name" == some (FVal.vStr (pythonTitle identifier)))

/-- `_get_new_applicant_count(db_client)`: counts documents whose `role`
field equals `"new"` and pluralizes the report. -/
def _get_new_applicant_count (dbClientPresent : Bool) (docs : List UserDoc) : String :=
  if !dbClientPresent then "Database not available."
  else
    let count := (docs.filter (fun d => d.lookup "role" == some (FVal.vStr "new"))).length
    if count = 0 then "There are currently no new applicants."
    else if count = 1 then "There is currently " ++ toString count ++ " new applicant."
    else "There are currently " ++ toString count ++ " new applicants."

/-- The `parameters` object of a router response: each key that the
dispatcher reads with `parameters.get(...)`, absent keys as `none`. -/
structure Params where
  field : Option String
  document_name : Option String
  target_identifier : Option String
  request_details : Option String
deriving DecidableEq

/-- A parsed router JSON object: `response.get("action_name")` and
`response.get("parameters", \x7b\x7d)`. -/
structure RouterResponse where
  action_name : Option String
  parameters : Params
deriving DecidableEq

/-- Outcome of the internal LLM routing call: either the chain raises (the
model call fails or its output is not JSON) or a parsed object is
returned. -/
inductive RouterOutcome where
  | raises
  | returns (resp : RouterResponse)
deriving DecidableEq

/-- Keyword set deciding document-status versus personal-data requests for
`get_information_about_anyone`. -/
def doc_keywords : List String :=
  ["document", "certificate", "id", "bank", "submission", "status", "upload"]

/-- Response when the database client is missing. -/
def msgDbConnect : String := "I am sorry, but I cannot connect to our database at the moment."

/-- Response when the caller's record cannot be loaded. -/
def msgProfileNotFound : String := "I'm sorry, I couldn't find your user profile."

/-- The generic cannot-perform-that-action response of the dispatcher's
final `else` branch. -/
def msgPermissionDenied : String :=
  "I'm sorry, I cannot perform that action due to your permissions or an unrecognized request."

/-- The generic response of the dispatcher's `except` handler. -/
def msgRephrase : String := "I had trouble processing your request. Please try rephrasing."

/-- The role-not-configured response, which interpolates the caller's role. -/
def msgRoleNotConfigured (roleText : String) : String :=
  "I'm sorry, your user role ('" ++ roleText ++ "') is not configured for any actions."

/-- `get_user_specific_data_tool(query, user_id, db_client)`: the main
dispatcher. The query text only feeds the router call, so the router's
outcome stands in for it. -/
def get_user_specific_data_tool (dbClientPresent : Bool) (store : Store)
    (router : RouterOutcome) (user_id : String) : String :=
  if !dbClientPresent then msgDbConnect
  else
    match _get_user_document dbClientPresent store user_id with
    | none => msgProfileNotFound
    | some user_doc =>
      if user_doc.isEmpty then msgProfileNotFound
      else
        let user_role := (user_doc.lookup "role").getD (FVal.vStr "unknown")
        let menuNonempty :=
          user_role == FVal.vStr "employee" || user_role == FVal.vStr "new"
            || user_role == FVal.vStr "hr"
        if !menuNonempty then msgRoleNotConfigured (pyStr user_role)
        else
          match router with
          | .raises => msgRephrase
          | .returns resp =>
            let ps := resp.parameters
            if resp.action_name == some "get_my_personal_info" then
              _get_personal_data user_doc ps.field
            else if resp.action_name == some "check_my_document_status" then
              _check_document_status user_doc ps.document_name
            else if resp.action_name == some "get_applicant_count"
                && user_role == FVal.vStr "hr" then
              _get_new_applicant_count dbClientPresent (store.users.map (fun kv => kv.2))
            else if resp.action_name == some "get_information_about_anyone"
                && user_role == FVal.vStr "hr" then
              let req_details := ps.request_details.getD "all"
              match ps.target_identifier with
              | none => "Please specify the person you are asking about."
              | some tid =>
                if tid = "" then "Please specify the person you are asking about."
                else
                  match _get_user_by_identifier (store.users.map (fun kv => kv.2)) tid with
                  | none => "I could not find a user matching '" ++ tid ++ "'."
                  | some target_doc =>
                    if doc_keywords.any
                        (fun keyword => subChars keyword.data (lowerStr req_details).data) then
                      _check_document_status target_doc (some req_details)
                    else
                      _get_personal_data target_doc (some req_details)
            else msgPermissionDenied

/-- C1: for a caller whose record's role is `employee` or `new`, a router
classification naming `get_information_about_anyone` or
`get_applicant_count` falls through to the dispatcher's final `else`
branch and yields the generic cannot-perform-that-action response,
whatever the parameters and whatever the store holds, so no target record
is looked up and no applicant count is computed. -/
theorem c1_nonhr_actions_rejected (store : Store) (uid : String) (user_doc : UserDoc)
    (r a : String) (resp : RouterResponse)
    (hfetch : _get_user_document true store uid = some user_doc)
    (hne : user_doc.isEmpty = false)
    (hrole : user_doc.lookup "role" = some (FVal.vStr r))
    (hr : r = "employee" ∨ r = "new")
    (ha : resp.action_name = some a)
    (haction : a = "get_information_about_anyone" ∨ a = "get_applicant_count") :
    get_user_specific_data_tool true store (RouterOutcome.returns resp) uid
      = msgPermissionDenied := by
  rcases hr with hr | hr <;> rcases haction with hA | hA <;> subst hr <;> subst hA <;>
    simp [get_user_specific_data_tool, hfetch, hne, hrole, ha, BEq.beq] <;> rfl

/-- C1 witness: a concrete employee caller with a router result naming
`get_applicant_count` is rejected with the generic response. -/
theorem c1_witness :
    get_user_specific_data_tool true
      ⟨[("u1", [("name", FVal.vStr "Eve"), ("role", FVal.vStr "employee")])], false⟩
      (RouterOutcome.returns ⟨some "get_applicant_count",
        ⟨none, none, some "salma", some "salary"⟩⟩) "u1"
      = msgPermissionDenied :=
  c1_nonhr_actions_rejected
    ⟨[("u1", [("name", FVal.vStr "Eve"), ("role", FVal.vStr "employee")])], false⟩
    "u1" [("name", FVal.vStr "Eve"), ("role", FVal.vStr "employee")]
    "employee" "get_applicant_count"
    ⟨some "get_applicant_count", ⟨none, none, some "salma", some "salary"⟩⟩
    (by decide) (by decide) (by decide) (Or.inl rfl) rfl (Or.inr rfl)

/-- C2: `find_robust_key` matches exactly when the lower-cased,
space-stripped requested name is a substring of a lower-cased,
space-stripped stored key (any returned key is a key of the map satisfying
that substring test, and when no key satisfies it nothing is returned);
and because `_check_document_status` consults the resubmission map first,
a record with `resubmissionRequested = [("ID Card", true)]` and
`uploadedDocuments = [("ID Card", true)]` always answers the request
`"id"` with the resubmission-required message, never the submitted one. -/
theorem c2_normalized_substring_and_resub_priority :
    (∀ (m : List (String × Bool)) (t k : String),
        find_robust_key m t = some k →
          k ∈ m.map Prod.fst ∧
            subChars (cleanChars t.data) (cleanChars k.data) = true)
    ∧ (∀ (m : List (String × Bool)) (t : String),
        (∀ kv ∈ m, subChars (cleanChars t.data) (cleanChars kv.1.data) = false) →
          find_robust_key m t = none)
    ∧ ∀ nm : String,
        _check_document_status
          [("name", FVal.vStr nm),
           ("resubmissionRequested", FVal.vMap [("ID Card", true)]),
           ("uploadedDocuments", FVal.vMap [("ID Card", true)])]
          (some "id")
        = "Action required for " ++ nm ++ ": They need to resubmit their '"
            ++ "ID Card" ++ "'." := by
  refine ⟨fun m t k h => ?_, fun m t h => ?_, fun nm => rfl⟩
  · rcases (Option.map_eq_some').mp h with ⟨kv, hfind, hk⟩
    subst hk
    have hp := List.find?_some hfind
    exact ⟨List.mem_map_of_mem Prod.fst (List.mem_of_find?_eq_some hfind), by simpa using hp⟩
  · have : (List.find? (fun kv => subChars (cleanChars t.data) (cleanChars kv.1.data)) m)
        = none := by
      rw [List.find?_eq_none]
      intro kv hkv
      simp [h kv hkv]
    simp [find_robust_key, this]

/-- C2 witness: the matching facts and the priority outcome at the
concrete record named `"Bo"`. -/
theorem c2_witness :
    ("ID Card" ∈ [("ID Card", true)].map Prod.fst ∧
        subChars (cleanChars "id".data) (cleanChars "ID Card".data) = true)
    ∧ _check_document_status
        [("name", FVal.vStr "Bo"),
         ("resubmissionRequested", FVal.vMap [("ID Card", true)]),
         ("uploadedDocuments", FVal.vMap [("ID Card", true)])]
        (some "id")
      = "Action required for Bo: They need to resubmit their 'ID Card'." := by
  constructor
  · exact c2_normalized_substring_and_resub_priority.1 [("ID Card", true)] "id" "ID Card"
      (by decide)
  · rw [c2_normalized_substring_and_resub_priority.2.2 "Bo"]
    rfl

/-- C3 counterexample: for a concrete employee caller, the permission
denial produced when the router names the hr-only `get_applicant_count`
is a different string from the response produced when the classification
call throws, so the two user-facing texts are not identical. -/
theorem c3_counterexample :
    get_user_specific_data_tool true ⟨[("u1", [("role", FVal.vStr "employee")])], false⟩
      (RouterOutcome.returns ⟨some "get_applicant_count", ⟨none, none, none, none⟩⟩) "u1"
    ≠ get_user_specific_data_tool true ⟨[("u1", [("role", FVal.vStr "employee")])], false⟩
      RouterOutcome.raises "u1" := by decide

/-- C3 (amended): the permission-denial text equals the text produced when
the classification output merely omits `action_name` (both are the final
`else` branch's generic message), but the text produced when the
classification call throws or returns non-JSON is the distinct
rephrase-request message, so a caller can tell a thrown classification
failure apart from a permission denial. -/
theorem c3_amended_denial_texts (store : Store) (uid : String) (user_doc : UserDoc)
    (r : String) (resp : RouterResponse)
    (hfetch : _get_user_document true store uid = some user_doc)
    (hne : user_doc.isEmpty = false)
    (hrole : user_doc.lookup "role" = some (FVal.vStr r))
    (hr : r = "employee" ∨ r = "new" ∨ r = "hr")
    (hmiss : resp.action_name = none) :
    get_user_specific_data_tool true store (RouterOutcome.returns resp) uid
        = msgPermissionDenied
    ∧ get_user_specific_data_tool true store RouterOutcome.raises uid = msgRephrase
    ∧ msgPermissionDenied ≠ msgRephrase := by
  refine ⟨?_, ?_, by decide⟩ <;>
    rcases hr with hr | hr | hr <;> subst hr <;>
      simp [get_user_specific_data_tool, hfetch, hne, hrole, hmiss, BEq.beq] <;> rfl

/-- C3 witness: the amended statement at a concrete hr caller. -/
theorem c3_witness :
    get_user_specific_data_tool true ⟨[("u3", [("role", FVal.vStr "hr")])], false⟩
        (RouterOutcome.returns ⟨none, ⟨none, none, none, none⟩⟩) "u3"
        = msgPermissionDenied
    ∧ get_user_specific_data_tool true ⟨[("u3", [("role", FVal.vStr "hr")])], false⟩
        RouterOutcome.raises "u3" = msgRephrase
    ∧ msgPermissionDenied ≠ msgRephrase :=
  c3_amended_denial_texts ⟨[("u3", [("role", FVal.vStr "hr")])], false⟩ "u3"
    [("role", FVal.vStr "hr")] "hr" ⟨none, ⟨none, none, none, none⟩⟩
    (by decide) (by decide) (by decide) (Or.inr (Or.inr rfl)) rfl

/-- C4 counterexample: a concrete classification result that omits
`action_name` makes the dispatcher return the generic
cannot-perform-that-action message, which is not the rephrase-request
message the claim announces. -/
theorem c4_counterexample :
    get_user_specific_data_tool true ⟨[("u2", [("role", FVal.vStr "new")])], false⟩
      (RouterOutcome.returns ⟨none, ⟨none, none, none, none⟩⟩) "u2"
      = msgPermissionDenied
    ∧ msgPermissionDenied ≠ msgRephrase := by decide

/-- C4 (amended): when the classification call returns a JSON object that
omits `action_name`, the dispatcher falls through to its final `else`
branch and returns the generic cannot-perform-that-action message — the
same text as a permission denial, not the rephrase-request message — and
the request still terminates with a defined response rather than an
unhandled exception. -/
theorem c4_amended_missing_action_name (store : Store) (uid : String) (user_doc : UserDoc)
    (r : String) (resp : RouterResponse)
    (hfetch : _get_user_document true store uid = some user_doc)
    (hne : user_doc.isEmpty = false)
    (hrole : user_doc.lookup "role" = some (FVal.vStr r))
    (hr : r = "employee" ∨ r = "new" ∨ r = "hr")
    (hmiss : resp.action_name = none) :
    get_user_specific_data_tool true store (RouterOutcome.returns resp) uid
      = msgPermissionDenied := by
  rcases hr with hr | hr | hr <;> subst hr <;>
    simp [get_user_specific_data_tool, hfetch, hne, hrole, hmiss, BEq.beq] <;> rfl

/-- C4 witness: the amended statement at a concrete new-hire caller. -/
theorem c4_witness :
    get_user_specific_data_tool true ⟨[("u2", [("role", FVal.vStr "new")])], false⟩
      (RouterOutcome.returns ⟨none, ⟨none, some "ID", none, none⟩⟩) "u2"
      = msgPermissionDenied :=
  c4_amended_missing_action_name ⟨[("u2", [("role", FVal.vStr "new")])], false⟩ "u2"
    [("role", FVal.vStr "new")] "new" ⟨none, ⟨none, some "ID", none, none⟩⟩
    (by decide) (by decide) (by decide) (Or.inr (Or.inl rfl)) rfl

/-- C5 counterexample: when the store's document-get raises, the concrete
dispatcher run answers with exactly the caller-record-absent text — the
same text an absent record produces — and not with the distinct
cannot-connect text, so the I/O failure is not reported as a separate
store-unavailable condition. -/
theorem c5_counterexample :
    get_user_specific_data_tool true ⟨[("u1", [("role", FVal.vStr "employee")])], true⟩
        RouterOutcome.raises "u1" = msgProfileNotFound
    ∧ get_user_specific_data_tool true ⟨[], false⟩ RouterOutcome.raises "u1"
        = msgProfileNotFound
    ∧ msgProfileNotFound ≠ msgDbConnect := by decide

/-- C5 (amended): if the store raises while the caller's record is loaded,
the exception is caught inside `_get_user_document` (which returns
`none`), the request terminates with the caller-record-absent response —
not a distinct store-unavailable response — and nothing propagates; the
cannot-connect response is reserved for a missing database client. -/
theorem c5_amended_io_failure_as_profile_missing (store : Store) (uid : String)
    (router : RouterOutcome) (h : store.getRaises = true) :
    _get_user_document true store uid = none
    ∧ get_user_specific_data_tool true store router uid = msgProfileNotFound
    ∧ msgProfileNotFound ≠ msgDbConnect := by
  have hdoc : _get_user_document true store uid = none := by
    simp [_get_user_document, h]
  exact ⟨hdoc, by simp [get_user_specific_data_tool, hdoc], by decide⟩

/-- C5 witness: the amended statement at a concrete raising store. -/
theorem c5_witness :
    _get_user_document true ⟨[("u1", [("role", FVal.vStr "hr")])], true⟩ "u1" = none
    ∧ get_user_specific_data_tool true ⟨[("u1", [("role", FVal.vStr "hr")])], true⟩
        RouterOutcome.raises "u1" = msgProfileNotFound
    ∧ msgProfileNotFound ≠ msgDbConnect :=
  c5_amended_io_failure_as_profile_missing ⟨[("u1", [("role", FVal.vStr "hr")])], true⟩
    "u1" RouterOutcome.raises rfl

/-- C6: in `_get_personal_data`, for every record and every non-empty
field name whose lower-casing is not `all`, the first case-insensitive
exact key match is returned; the synthetic salary handling
(`syntheticSalary`) runs only when no record key matches
case-insensitively. -/
theorem c6_direct_match_beats_synthetic_salary (user_doc : UserDoc) (f k : String) (v : FVal)
    (hne : f ≠ "") (hall : lowerStr f ≠ "all") :
    (user_doc.find? (fun kv => lowerStr kv.1 == lowerStr f) = some (k, v) →
      _get_personal_data user_doc (some f)
        = "The value for '" ++ k ++ "' for " ++ docName user_doc "The user"
            ++ " is: " ++ pyStr v)
    ∧ (user_doc.find? (fun kv => lowerStr kv.1 == lowerStr f) = none →
        lowerStr f = "salary" →
        _get_personal_data user_doc (some f) = syntheticSalary user_doc) := by
  constructor
  · intro h
    simp [_get_personal_data, hne, hall, h]
  · intro h hsal
    rw [hsal] at h
    simp [_get_personal_data, hne, hall, h, hsal]

/-- C6 witness: a record with a literal key `Salary` answers the request
`salary` with the direct match, not with total compensation. -/
theorem c6_witness :
    _get_personal_data
      [("name", FVal.vStr "ann"), ("Salary", FVal.vStr "confidential"),
       ("baseSalary", FVal.vNum 85000), ("bonus", FVal.vNum 5000)]
      (some "salary")
      = "The value for 'Salary' for ann is: confidential" := by
  rw [(c6_direct_match_beats_synthetic_salary
    [("name", FVal.vStr "ann"), ("Salary", FVal.vStr "confidential"),
     ("baseSalary", FVal.vNum 85000), ("bonus", FVal.vNum 5000)]
    "salary" "Salary" (FVal.vStr "confidential")
    (by decide) (by decide)).1 (by decide)]
  decide

/-- C7: `_get_user_by_identifier` returns the first document whose email
equals the identifier exactly; only when no email matches does it return
the first document whose name equals the title-cased identifier; the
identifier `bob@co.com` resolves by email past a record named `Bob`, and
the name-only identifier `bob smith` resolves through title-casing. -/
theorem c7_email_first_then_titled_name (docs : List UserDoc) (id : String) (d : UserDoc)
    (hne : id ≠ "") :
    (docs.find? (fun u => u.lookup "email" == some (FVal.vStr id)) = some d →
        _get_user_by_identifier docs id = some d)
    ∧ (docs.find? (fun u => u.lookup "email" == some (FVal.vStr id)) = none →
        _get_user_by_identifier docs id
          = docs.find? (fun u => u.lookup "name" == some (FVal.vStr (pythonTitle id))))
    ∧ _get_user_by_identifier
        [[("name", FVal.vStr "Bob"), ("email", FVal.vStr "bob@other.com")],
         [("name", FVal.vStr "Carol"), ("email", FVal.vStr "bob@co.com")]] "bob@co.com"
        = some [("name", FVal.vStr "Carol"), ("email", FVal.vStr "bob@co.com")]
    ∧ _get_user_by_identifier
        [[("name", FVal.vStr "Bob Smith"), ("email", FVal.vStr "bs@co.com")]] "bob smith"
        = some [("name", FVal.vStr "Bob Smith"), ("email", FVal.vStr "bs@co.com")] := by
  refine ⟨fun h => ?_, fun h => ?_, by decide, by decide⟩
  · simp [_get_user_by_identifier, hne, h]
  · simp [_get_user_by_identifier, hne, h]

/-- C7 witness: the email-priority fact applied to the two-record store of
the claim's example. -/
theorem c7_witness :
    _get_user_by_identifier
      [[("name", FVal.vStr "Bob"), ("email", FVal.vStr "bob@other.com")],
       [("name", FVal.vStr "Carol"), ("email", FVal.vStr "bob@co.com")]] "bob@co.com"
      = some [("name", FVal.vStr "Carol"), ("email", FVal.vStr "bob@co.com")] :=
  (c7_email_first_then_titled_name
    [[("name", FVal.vStr "Bob"), ("email", FVal.vStr "bob@other.com")],
     [("name", FVal.vStr "Carol"), ("email", FVal.vStr "bob@co.com")]]
    "bob@co.com"
    [("name", FVal.vStr "Carol"), ("email", FVal.vStr "bob@co.com")]
    (by decide)).1 (by decide)

/-- C8 counterexample: two callers whose roles (`guest`, `contractor`) are
both outside the configured set receive different response texts, because
the role-not-configured message interpolates the caller's role — so there
is no single fixed text shared by every such role. -/
theorem c8_counterexample :
    get_user_specific_data_tool true ⟨[("u1", [("role", FVal.vStr "guest")])], false⟩
      RouterOutcome.raises "u1"
    ≠ get_user_specific_data_tool true ⟨[("u1", [("role", FVal.vStr "contractor")])], false⟩
      RouterOutcome.raises "u1" := by decide

/-- C8 (amended): for every caller whose record's role is outside
`employee`/`new`/`hr`, the action menu is empty and the dispatcher
answers with the role-not-configured message with that role name
interpolated — a text that varies with the role — and the answer does not
depend on the router outcome, so the request terminates before any
classification call. -/
theorem c8_amended_role_not_configured (store : Store) (uid : String) (user_doc : UserDoc)
    (r : String) (router : RouterOutcome)
    (hfetch : _get_user_document true store uid = some user_doc)
    (hne : user_doc.isEmpty = false)
    (hrole : user_doc.lookup "role" = some (FVal.vStr r))
    (hr : r ≠ "employee" ∧ r ≠ "new" ∧ r ≠ "hr") :
    get_user_specific_data_tool true store router uid = msgRoleNotConfigured r := by
  simp [get_user_specific_data_tool, hfetch, hne, hrole, BEq.beq,
    hr.1, hr.2.1, hr.2.2, msgRoleNotConfigured, pyStr]

/-- C8 witness: the amended statement at a concrete `guest` caller. -/
theorem c8_witness :
    get_user_specific_data_tool true ⟨[("u1", [("role", FVal.vStr "guest")])], false⟩
      (RouterOutcome.returns ⟨some "get_my_personal_info", ⟨some "all", none, none, none⟩⟩)
      "u1"
      = msgRoleNotConfigured "guest" :=
  c8_amended_role_not_configured ⟨[("u1", [("role", FVal.vStr "guest")])], false⟩ "u1"
    [("role", FVal.vStr "guest")] "guest"
    (RouterOutcome.returns ⟨some "get_my_personal_info", ⟨some "all", none, none, none⟩⟩)
    (by decide) (by decide) (by decide) (by decide)

/-- C9: in `_check_document_status`, a resubmission-map match whose flag
is false does not terminate the check: the uploaded-documents map is still
consulted, and a true-flagged match there (a nonempty key, so the walrus
truthiness test fires) reports the submitted-and-approved message. -/
theorem c9_false_resub_flag_falls_through (nm dn : String) (m1 m2 : List (String × Bool))
    (k1 k2 : String)
    (hdn : dn ≠ "")
    (h1 : find_robust_key m1 dn = some k1)
    (hf1 : m1.lookup k1 = some false)
    (h2 : find_robust_key m2 dn = some k2)
    (hk2 : k2 ≠ "")
    (hf2 : m2.lookup k2 = some true) :
    _check_document_status
      [("name", FVal.vStr nm), ("resubmissionRequested", FVal.vMap m1),
       ("uploadedDocuments", FVal.vMap m2)] (some dn)
      = "Yes, the '" ++ k2 ++ "' for " ++ nm
          ++ " has been successfully submitted and approved." := by
  have hm1 : m1 ≠ [] := by
    intro e
    subst e
    simp [find_robust_key] at h1
  have hm2 : m2 ≠ [] := by
    intro e
    subst e
    simp [find_robust_key] at h2
  have hra :
      List.lookup "resubmissionRequested"
        [("name", FVal.vStr nm), ("resubmissionRequested", FVal.vMap m1),
         ("uploadedDocuments", FVal.vMap m2)] = some (FVal.vMap m1) := rfl
  have hup :
      List.lookup "uploadedDocuments"
        [("name", FVal.vStr nm), ("resubmissionRequested", FVal.vMap m1),
         ("uploadedDocuments", FVal.vMap m2)] = some (FVal.vMap m2) := rfl
  simp [_check_document_status, hdn, hra, hup, hm1, hm2, h1, h2, hk2, hf1, hf2,
    docName, pyStr]

/-- C9 witness: a false resubmission flag for `ID Card` together with a
true uploaded flag yields the submitted-and-approved message. -/
theorem c9_witness :
    _check_document_status
      [("name", FVal.vStr "Bo"), ("resubmissionRequested", FVal.vMap [("ID Card", false)]),
       ("uploadedDocuments", FVal.vMap [("ID Card", true)])] (some "id")
      = "Yes, the 'ID Card' for Bo has been successfully submitted and approved." := by
  rw [c9_false_resub_flag_falls_through "Bo" "id" [("ID Card", false)] [("ID Card", true)]
    "ID Card" "ID Card" (by decide) (by decide) (by decide) (by decide) (by decide)
    (by decide)]
  rfl

/-- C10: an hr `get_information_about_anyone` dispatch whose parameters
omit `request_details` substitutes the literal `all`; no document keyword
occurs in `all`, so a resolved target yields the formatter's full
canonical summary of the target record. -/
theorem c10_default_request_details_is_all (store : Store) (uid tid : String)
    (caller target : UserDoc)
    (hfetch : _get_user_document true store uid = some caller)
    (hne : caller.isEmpty = false)
    (hrole : caller.lookup "role" = some (FVal.vStr "hr"))
    (htid : tid ≠ "")
    (htarget : _get_user_by_identifier (store.users.map (fun kv => kv.2)) tid
      = some target) :
    get_user_specific_data_tool true store
      (RouterOutcome.returns
        ⟨some "get_information_about_anyone", ⟨none, none, some tid, none⟩⟩) uid
      = allSummary target := by
  have hall : ∀ t : UserDoc, _get_personal_data t (some "all") = allSummary t :=
    fun t => rfl
  simp +decide [get_user_specific_data_tool, hfetch, hne, hrole, htid, htarget,
    BEq.beq, hall]

/-- C10 witness: a concrete hr caller, target resolved by email, no
`request_details` supplied: the response is the target's full summary. -/
theorem c10_witness :
    get_user_specific_data_tool true
      ⟨[("u1", [("role", FVal.vStr "hr")]),
        ("u2", [("name", FVal.vStr "Salma"), ("email", FVal.vStr "salma@co.com"),
                ("baseSalary", FVal.vNum 60000)])], false⟩
      (RouterOutcome.returns
        ⟨some "get_information_about_anyone", ⟨none, none, some "salma@co.com", none⟩⟩)
      "u1"
      = allSummary [("name", FVal.vStr "Salma"), ("email", FVal.vStr "salma@co.com"),
          ("baseSalary", FVal.vNum 60000)] :=
  c10_default_request_details_is_all
    ⟨[("u1", [("role", FVal.vStr "hr")]),
      ("u2", [("name", FVal.vStr "Salma"), ("email", FVal.vStr "salma@co.com"),
              ("baseSalary", FVal.vNum 60000)])], false⟩
    "u1" "salma@co.com" [("role", FVal.vStr "hr")]
    [("name", FVal.vStr "Salma"), ("email", FVal.vStr "salma@co.com"),
     ("baseSalary", FVal.vNum 60000)]
    (by decide) (by decide) (by decide) (by decide) (by decide)
